import Mathlib

/-!
Shallow embedding of `src/components/datetime/src/date.rs` from the icu4x
repository (the `icu_datetime` date module): the `DateTimeError` type, the
six bounded date/time unit types generated by the `dt_unit!` macro
(`Month`, `WeekDay`, `Day`, `Hour`, `Minute`, `Second`), and the
`MockDateTime` composite with its `try_new` constructor and `FromStr`
implementation.

Modelling conventions:
 - Rust `u8` values are `Nat` with arithmetic reduced `% 256` where the
   source performs raw `u8` arithmetic (`Add`/`Sub` impls, `as u8` casts).
   Rust's release-mode behaviour on overflow is two's-complement wrapping,
   which the `% 256` reduction models; debug mode aborts instead, and
   neither mode returns an error value, which is the fact the claims are
   about.
 - Rust `usize` is modelled as `Nat`; theorems that depend on the machine
   width carry an explicit `< 2 ^ 64` bound.
 - Strings are modelled as `List Char`.  Rust indexes `&str` by bytes;
   on the ASCII inputs this parser is defined for, byte indices and
   character indices coincide.  Rust's panicking slice `input[a..b]` is
   modelled by an `Option`-valued slice, `none` standing for the panic
   (index out of bounds), so `MockDateTime.from_str` returns
   `Option (Except DateTimeError MockDateTime)` with `none` = abort.
 - The `dt_unit!` macro stamps out six structurally identical types; the
   embedding uses one structure `DTUnit` indexed by a `UnitKind` whose
   `max` function records each instantiation's bound
   (`dt_unit!(Month, 12)` etc.).  Note that the macro writes the error
   field as the string literal `"$name"`; `macro_rules!` does not
   substitute metavariables inside string literals, so every unit type's
   overflow error carries the literal five-character field name `$name`.
-/

namespace ICU4X

/-- Kinds of integer-parse failure, mirroring the cases of Rust's
`std::num::ParseIntError` that the decimal parser for unsigned integers
can produce: empty input, a non-digit character, or a value too large for
the target type. -/
inductive ParseIntError where
  | Empty : ParseIntError
  | InvalidDigit : ParseIntError
  | PosOverflow : ParseIntError
deriving DecidableEq

/-- Display text of a `ParseIntError`, as rendered by Rust's
`std::num::ParseIntError: Display`. -/
def ParseIntError.message : ParseIntError → String
  | .Empty => "cannot parse integer from empty string"
  | .InvalidDigit => "invalid digit found in string"
  | .PosOverflow => "number too large to fit in target type"

/-- The `DateTimeError` enum of `date.rs`: `Parse` wraps an integer-parse
failure, `Overflow` carries a field name and the field's declared maximum. -/
inductive DateTimeError where
  | Parse : ParseIntError → DateTimeError
  | Overflow : String → Nat → DateTimeError
deriving DecidableEq

/-- The `fmt::Display` impl for `DateTimeError`: a `Parse` error renders
the wrapped error's message verbatim; an `Overflow` error renders as
`<field> must be between 0-<max>`. -/
def DateTimeError.display : DateTimeError → String
  | .Parse err => err.message
  | .Overflow field max => field ++ " must be between 0-" ++ toString max

/-- Decimal digit accumulation with an overflow bound, mirroring the loop
of Rust's `from_str_radix` for unsigned integers: each character must be a
decimal digit, and each multiply-by-ten-and-add step is checked against
the type's maximum (`bound`). -/
def parseDigits (bound : Nat) : List Char → Nat → Except ParseIntError Nat
  | [], acc => .ok acc
  | c :: rest, acc =>
    if c.isDigit then
      let acc' := acc * 10 + (c.toNat - 48)
      if acc' > bound then .error .PosOverflow
      else parseDigits bound rest acc'
    else .error .InvalidDigit

/-- Rust's `str::parse` for an unsigned integer type with maximum `bound`:
empty input is an `Empty` error, a single leading `+` is allowed (with a
nonempty digit tail), every remaining character must be a decimal digit,
and the accumulated value is checked against `bound` step by step. -/
def parseUnsigned (bound : Nat) (input : List Char) : Except ParseIntError Nat :=
  match input with
  | [] => .error .Empty
  | c :: rest =>
    if c = '+' then
      match rest with
      | [] => .error .InvalidDigit
      | _ => parseDigits bound rest 0
    else parseDigits bound input 0

/-- `u8::from_str` specialised: decimal parse bounded by `u8::MAX = 255`. -/
def parseU8 (input : List Char) : Except ParseIntError Nat :=
  parseUnsigned 255 input

/-- `usize::from_str` specialised: decimal parse bounded by
`usize::MAX = 2 ^ 64 - 1` (64-bit target). -/
def parseUsize (input : List Char) : Except ParseIntError Nat :=
  parseUnsigned (2 ^ 64 - 1) input

/-- The six unit kinds instantiated by `dt_unit!` at the bottom of
`date.rs`. -/
inductive UnitKind where
  | Month : UnitKind
  | WeekDay : UnitKind
  | Day : UnitKind
  | Hour : UnitKind
  | Minute : UnitKind
  | Second : UnitKind
deriving DecidableEq

/-- The inclusive maximum each `dt_unit!` instantiation passes for its
kind: `dt_unit!(Month, 12)`, `dt_unit!(WeekDay, 7)`, `dt_unit!(Day, 32)`,
`dt_unit!(Hour, 24)`, `dt_unit!(Minute, 60)`, `dt_unit!(Second, 60)`. -/
def UnitKind.max : UnitKind → Nat
  | .Month => 12
  | .WeekDay => 7
  | .Day => 32
  | .Hour => 24
  | .Minute => 60
  | .Second => 60

/-- A bounded date/time unit value: the struct `$name(u8)` the `dt_unit!`
macro defines for each kind.  `val` is the raw `u8` payload as a `Nat`;
every operation of the source that stores into it is modelled so that the
stored value is reduced `% 256` wherever the source narrows or wraps. -/
structure DTUnit (k : UnitKind) where
  val : Nat
deriving DecidableEq

/-- `$name::new_unchecked(input: u8)`: wraps the raw byte with no range
check. -/
def DTUnit.new_unchecked (k : UnitKind) (input : Nat) : DTUnit k :=
  ⟨input % 256⟩

/-- The `FromStr` impl `dt_unit!` generates: parse the text as a `u8`,
wrap a parse failure as `DateTimeError.Parse`, and reject values above the
kind's maximum with `Overflow`.  The field name in the error is the
literal string `$name`: the macro writes `field: "$name"`, and
`macro_rules!` does not substitute inside string literals. -/
def DTUnit.from_str (k : UnitKind) (input : List Char) :
    Except DateTimeError (DTUnit k) :=
  match parseU8 input with
  | .error e => .error (.Parse e)
  | .ok val =>
    if val > k.max then .error (.Overflow "$name" k.max)
    else .ok ⟨val⟩

/-- The `TryFrom<u8>` impl `dt_unit!` generates: reject inputs above the
kind's maximum with `Overflow` (field name the literal `$name`), accept
the rest unchanged.  Meaningful for `input < 256` (the `u8` domain). -/
def DTUnit.try_from_u8 (k : UnitKind) (input : Nat) :
    Except DateTimeError (DTUnit k) :=
  if input > k.max then .error (.Overflow "$name" k.max)
  else .ok ⟨input⟩

/-- The `TryFrom<usize>` impl `dt_unit!` generates: the range check runs
on the full `usize` input, and only the accepted value is narrowed with
`as u8` (modelled by `% 256`).  Meaningful for `input < 2 ^ 64` (the
`usize` domain). -/
def DTUnit.try_from_usize (k : UnitKind) (input : Nat) :
    Except DateTimeError (DTUnit k) :=
  if input > k.max then .error (.Overflow "$name" k.max)
  else .ok ⟨input % 256⟩

/-- The `From<$name> for u8` impl: returns the raw payload. -/
def DTUnit.to_u8 {k : UnitKind} (x : DTUnit k) : Nat :=
  x.val

/-- The `From<$name> for usize` impl: `input.0 as usize`, a widening cast
that preserves the value. -/
def DTUnit.to_usize {k : UnitKind} (x : DTUnit k) : Nat :=
  x.val

/-- The `Add<u8>` impl: `Self(self.0 + other)`: raw `u8` addition with no
range re-check; on overflow past 255 Rust aborts (debug) or wraps
(release), never returning an error; the wrap is modelled by `% 256`. -/
def DTUnit.add {k : UnitKind} (x : DTUnit k) (other : Nat) : DTUnit k :=
  ⟨(x.val + other) % 256⟩

/-- The `Sub<u8>` impl: `Self(self.0 - other)`: raw `u8` subtraction with
no underflow guard; below 0 Rust aborts (debug) or wraps (release), never
returning an error; the wrap is modelled by adding 256 and reducing. -/
def DTUnit.sub {k : UnitKind} (x : DTUnit k) (other : Nat) : DTUnit k :=
  ⟨(x.val + 256 - other % 256) % 256⟩

/-- The `MockDateTime` struct: an unbounded `usize` year and five bounded
fields. -/
structure MockDateTime where
  year : Nat
  month : DTUnit .Month
  day : DTUnit .Day
  hour : DTUnit .Hour
  minute : DTUnit .Minute
  second : DTUnit .Second
deriving DecidableEq

/-- `MockDateTime::new`: pure aggregation of already-validated values. -/
def MockDateTime.new (year : Nat) (month : DTUnit .Month) (day : DTUnit .Day)
    (hour : DTUnit .Hour) (minute : DTUnit .Minute) (second : DTUnit .Second) :
    MockDateTime :=
  ⟨year, month, day, hour, minute, second⟩

/-- `MockDateTime::try_new`: the year is stored unvalidated; each of the
five bounded components goes through its `TryFrom<usize>` conversion, in
the struct-literal evaluation order of the source (month, day, hour,
minute, second), with `?` propagating the first failure. -/
def MockDateTime.try_new (year month day hour minute second : Nat) :
    Except DateTimeError MockDateTime :=
  match DTUnit.try_from_usize .Month month with
  | .error e => .error e
  | .ok m =>
    match DTUnit.try_from_usize .Day day with
    | .error e => .error e
    | .ok d =>
      match DTUnit.try_from_usize .Hour hour with
      | .error e => .error e
      | .ok h =>
        match DTUnit.try_from_usize .Minute minute with
        | .error e => .error e
        | .ok mi =>
          match DTUnit.try_from_usize .Second second with
          | .error e => .error e
          | .ok s => .ok ⟨year, m, d, h, mi, s⟩

/-- The `DateTimeType` accessor `fn year(&self) -> usize { self.year }`. -/
def MockDateTime.yearAcc (dt : MockDateTime) : Nat := dt.year

/-- The `DateTimeType` accessor `fn month(&self) -> Month { self.month }`. -/
def MockDateTime.monthAcc (dt : MockDateTime) : DTUnit .Month := dt.month

/-- The `DateTimeType` accessor `fn day(&self) -> Day { self.day }`. -/
def MockDateTime.dayAcc (dt : MockDateTime) : DTUnit .Day := dt.day

/-- The `DateTimeType` accessor `fn hour(&self) -> Hour { self.hour }`. -/
def MockDateTime.hourAcc (dt : MockDateTime) : DTUnit .Hour := dt.hour

/-- The `DateTimeType` accessor `fn minute(&self) -> Minute { self.minute }`. -/
def MockDateTime.minuteAcc (dt : MockDateTime) : DTUnit .Minute := dt.minute

/-- The `DateTimeType` accessor `fn second(&self) -> Second { self.second }`. -/
def MockDateTime.secondAcc (dt : MockDateTime) : DTUnit .Second := dt.second

/-- Rust's panicking string slice `input[a..b]`: `some` of the
characters in `[a, b)` when the range is valid for the input, `none`
(modelling the panic) when it runs past the end. -/
def strSlice (input : List Char) (a b : Nat) : Option (List Char) :=
  if a ≤ b ∧ b ≤ input.length then some ((input.drop a).take (b - a))
  else none

/-- The `FromStr` impl for `MockDateTime`: six fixed-position slices
(`[0..4]`, `[5..7]`, `[8..10]`, `[11..13]`, `[14..16]`, `[17..19]`) are
parsed in order, `?` propagating the first parse or range failure; month
and day are then decremented by one through the unchecked `Sub<u8>` impl
before storage.  The outer `Option` models the slice panics: each slice
is taken (and may panic) only after all earlier fields parsed
successfully, matching the source's evaluation order. -/
def MockDateTime.from_str (input : List Char) :
    Option (Except DateTimeError MockDateTime) :=
  match strSlice input 0 4 with
  | none => none
  | some ys =>
    match parseUsize ys with
    | .error e => some (.error (.Parse e))
    | .ok year =>
      match strSlice input 5 7 with
      | none => none
      | some ms =>
        match DTUnit.from_str .Month ms with
        | .error e => some (.error e)
        | .ok month =>
          match strSlice input 8 10 with
          | none => none
          | some ds =>
            match DTUnit.from_str .Day ds with
            | .error e => some (.error e)
            | .ok day =>
              match strSlice input 11 13 with
              | none => none
              | some hs =>
                match DTUnit.from_str .Hour hs with
                | .error e => some (.error e)
                | .ok hour =>
                  match strSlice input 14 16 with
                  | none => none
                  | some mis =>
                    match DTUnit.from_str .Minute mis with
                    | .error e => some (.error e)
                    | .ok minute =>
                      match strSlice input 17 19 with
                      | none => none
                      | some ss =>
                        match DTUnit.from_str .Second ss with
                        | .error e => some (.error e)
                        | .ok second =>
                          some (.ok ⟨year, month.sub 1, day.sub 1,
                                     hour, minute, second⟩)

end ICU4X

namespace ICU4X

/-! ## Helper lemmas -/

/-- Inversion for a successful unit parse: the text parsed to exactly the
stored raw value, and that value is within the kind's bound. -/
theorem DTUnit.from_str_ok_bound {k : UnitKind} {s : List Char} {u : DTUnit k}
    (h : DTUnit.from_str k s = .ok u) :
    parseU8 s = .ok u.val ∧ u.val ≤ k.max := by
  unfold DTUnit.from_str at h
  split at h
  · simp at h
  next val heq =>
    split at h
    · simp at h
    next hle =>
      cases h
      exact ⟨heq, Nat.le_of_not_lt hle⟩

/-- A slice that did not panic lies within the input. -/
theorem strSlice_some_length {input : List Char} {a b : Nat} {s : List Char}
    (h : strSlice input a b = some s) : b ≤ input.length := by
  unfold strSlice at h
  split at h
  next hc => exact hc.2
  · simp at h

/-- Inversion for a successful composite parse: all six fixed-position
slices were in bounds, each parsed successfully, and the result stores
the parsed units with month and day decremented through `Sub<u8>`. -/
theorem MockDateTime.from_str_ok_fields {input : List Char} {dt : MockDateTime}
    (h : MockDateTime.from_str input = some (.ok dt)) :
    ∃ ys ms ds hs mis ss y mu du hu miu su,
      strSlice input 0 4 = some ys ∧ parseUsize ys = .ok y ∧
      strSlice input 5 7 = some ms ∧ DTUnit.from_str .Month ms = .ok mu ∧
      strSlice input 8 10 = some ds ∧ DTUnit.from_str .Day ds = .ok du ∧
      strSlice input 11 13 = some hs ∧ DTUnit.from_str .Hour hs = .ok hu ∧
      strSlice input 14 16 = some mis ∧ DTUnit.from_str .Minute mis = .ok miu ∧
      strSlice input 17 19 = some ss ∧ DTUnit.from_str .Second ss = .ok su ∧
      dt = ⟨y, mu.sub 1, du.sub 1, hu, miu, su⟩ := by
  unfold MockDateTime.from_str at h
  split at h <;> try simp at h
  next ys hys =>
  split at h <;> try simp at h
  next y hy =>
  split at h <;> try simp at h
  next ms hms =>
  split at h <;> try simp at h
  next mu hmu =>
  split at h <;> try simp at h
  next ds hds =>
  split at h <;> try simp at h
  next du hdu =>
  split at h <;> try simp at h
  next hs2 hhs =>
  split at h <;> try simp at h
  next hu hhu =>
  split at h <;> try simp at h
  next mis hmis =>
  split at h <;> try simp at h
  next miu hmiu =>
  split at h <;> try simp at h
  next ss hss =>
  split at h <;> try simp at h
  next su hsu =>
  exact ⟨ys, ms, ds, hs2, mis, ss, y, mu, du, hu, miu, su,
    hys, hy, hms, hmu, hds, hdu, hhs, hhu, hmis, hmiu, hss, hsu, h.symm⟩

end ICU4X

namespace ICU4X

/-! ## Claim theorems -/

/-- C1: parsing the string `99` directly as a `Minute` fails with an
overflow error carrying the declared maximum 60, and the error renders
via `Display` in the shape `<field> must be between 0-<max>` — but the
field string the code puts in the error is the literal `$name`, not the
word `minute` (or `Minute`): `macro_rules!` leaves `$name` unsubstituted
inside the string literal `"$name"`, so the rendered message is
`$name must be between 0-60` rather than one naming the minute field. -/
theorem C1_minute_overflow_field_name :
    DTUnit.from_str .Minute ("99".data) = .error (.Overflow "$name" 60) ∧
    DateTimeError.display (.Overflow "$name" 60) =
      "$name must be between 0-60" ∧
    ("$name" : String) ≠ "minute" ∧ ("$name" : String) ≠ "Minute" := by
  exact ⟨rfl, rfl, by decide, by decide⟩

/-- C4: parsing `2020-09-24T13:21:00` as a composite date-time succeeds
and yields year 2020, month raw value 8, day raw value 23, hour 13,
minute 21, second 0. -/
theorem C4_parse_example :
    MockDateTime.from_str ("2020-09-24T13:21:00".data) =
      some (.ok ⟨2020, ⟨8⟩, ⟨23⟩, ⟨13⟩, ⟨21⟩, ⟨0⟩⟩) := rfl

/-- C2: every accepted composite parse stores month and day as the parsed
wire values pushed through the unchecked `Sub<u8>` decrement — equal to
wire value minus one whenever the wire value is at least 1 — and a wire
month or day field of `00` is not rejected: the subtraction at 0 wraps
(release) or aborts (debug) rather than returning an error, here modelled
as the wrap to 255. -/
theorem C2_month_day_decrement_unchecked :
    (∀ input dt, MockDateTime.from_str input = some (.ok dt) →
      ∃ ms ds mv dv,
        strSlice input 5 7 = some ms ∧ parseU8 ms = .ok mv ∧
        strSlice input 8 10 = some ds ∧ parseU8 ds = .ok dv ∧
        dt.month = DTUnit.sub ⟨mv⟩ 1 ∧ dt.day = DTUnit.sub ⟨dv⟩ 1 ∧
        (1 ≤ mv → dt.month.val = mv - 1) ∧
        (1 ≤ dv → dt.day.val = dv - 1)) ∧
    MockDateTime.from_str ("2020-00-05T00:00:00".data) =
      some (.ok ⟨2020, ⟨255⟩, ⟨4⟩, ⟨0⟩, ⟨0⟩, ⟨0⟩⟩) ∧
    MockDateTime.from_str ("2020-01-00T00:00:00".data) =
      some (.ok ⟨2020, ⟨0⟩, ⟨255⟩, ⟨0⟩, ⟨0⟩, ⟨0⟩⟩) := by
  refine ⟨?_, rfl, rfl⟩
  intro input dt h
  obtain ⟨ys, ms, ds, hs2, mis, ss, y, mu, du, hu, miu, su,
    hys, hy, hms, hmu, hds, hdu, hhs, hhu, hmis, hmiu, hss, hsu, hdt⟩ :=
    MockDateTime.from_str_ok_fields h
  obtain ⟨hpm, hbm⟩ := DTUnit.from_str_ok_bound hmu
  obtain ⟨hpd, hbd⟩ := DTUnit.from_str_ok_bound hdu
  subst hdt
  have hbm' : mu.val ≤ 12 := hbm
  have hbd' : du.val ≤ 32 := hbd
  refine ⟨ms, ds, mu.val, du.val, hms, hpm, hds, hpd, rfl, rfl, ?_, ?_⟩
  · intro h1
    show (mu.val + 256 - 1 % 256) % 256 = mu.val - 1
    omega
  · intro h1
    show (du.val + 256 - 1 % 256) % 256 = du.val - 1
    omega

/-- C2 witness: the general part of C2 instantiated at the concrete
accepted input `2020-09-24T13:21:00`. -/
theorem C2_month_day_decrement_unchecked_witness :
    ∃ ms ds mv dv,
      strSlice ("2020-09-24T13:21:00".data) 5 7 = some ms ∧
      parseU8 ms = .ok mv ∧
      strSlice ("2020-09-24T13:21:00".data) 8 10 = some ds ∧
      parseU8 ds = .ok dv ∧
      (⟨8⟩ : DTUnit .Month) = DTUnit.sub ⟨mv⟩ 1 ∧
      (⟨23⟩ : DTUnit .Day) = DTUnit.sub ⟨dv⟩ 1 ∧
      (1 ≤ mv → (8 : Nat) = mv - 1) ∧
      (1 ≤ dv → (23 : Nat) = dv - 1) :=
  C2_month_day_decrement_unchecked.1 ("2020-09-24T13:21:00".data)
    ⟨2020, ⟨8⟩, ⟨23⟩, ⟨13⟩, ⟨21⟩, ⟨0⟩⟩ rfl

/-- C8 counterexample: the claim says an input shorter than the
19-character fixed width never yields a returned parse-failure or
overflow result, but the 4-character input `abcd` slices in bounds for
the year field and returns a parse failure. -/
theorem C8_counterexample :
    ("abcd".data).length < 19 ∧
    MockDateTime.from_str ("abcd".data) =
      some (.error (.Parse .InvalidDigit)) := by
  exact ⟨by decide, rfl⟩

/-- C8 (amended): composite parsing performs no length or format
pre-check; an input shorter than 19 characters never parses successfully:
either an earlier in-bounds field returns its parse-failure or overflow
error, or the fixed-position slicing itself is out of bounds and aborts —
as for the 16-character input `0000-01-01T00:00`, where every in-bounds
field (including the minute slice `[14..16]`, which parses to 0) is
valid and the slice `[17..19]` of the second field is out of bounds and
panics. -/
theorem C8_short_input_never_succeeds :
    (∀ input dt, input.length < 19 →
      MockDateTime.from_str input ≠ some (.ok dt)) ∧
    MockDateTime.from_str ("0000-01-01T00:00".data) = none ∧
    strSlice ("0000-01-01T00:00".data) 14 16 = some ("00".data) ∧
    parseU8 ("00".data) = .ok 0 ∧
    strSlice ("0000-01-01T00:00".data) 17 19 = none := by
  refine ⟨?_, rfl, rfl, rfl, rfl⟩
  intro input dt hlen h
  obtain ⟨ys, ms, ds, hs2, mis, ss, y, mu, du, hu, miu, su,
    hys, hy, hms, hmu, hds, hdu, hhs, hhu, hmis, hmiu, hss, hsu, hdt⟩ :=
    MockDateTime.from_str_ok_fields h
  have := strSlice_some_length hss
  omega

/-- C8 witness: the general part of the amended claim applied to the
concrete 4-character input `abcd`. -/
theorem C8_short_input_never_succeeds_witness :
    MockDateTime.from_str ("abcd".data) ≠
      some (.ok ⟨0, ⟨0⟩, ⟨0⟩, ⟨0⟩, ⟨0⟩, ⟨0⟩⟩) :=
  C8_short_input_never_succeeds.1 ("abcd".data)
    ⟨0, ⟨0⟩, ⟨0⟩, ⟨0⟩, ⟨0⟩, ⟨0⟩⟩ (by decide)

end ICU4X

namespace ICU4X

/-- Every unit kind's declared maximum fits in a byte. -/
theorem UnitKind.max_lt_256 (k : UnitKind) : k.max < 256 := by
  cases k <;> simp [UnitKind.max]

/-- C3: for every unit kind and unsigned integer `v`, the checked
conversions succeed exactly when `v ≤ max`; in particular `v = max` is
accepted unchanged and `v = max + 1` is rejected with an overflow error
carrying that maximum. -/
theorem C3_try_from_succeeds_iff_le_max (k : UnitKind) (v : Nat)
    (_hv : v < 2 ^ 64) :
    ((∃ u, DTUnit.try_from_usize k v = .ok u) ↔ v ≤ k.max) ∧
    (v < 256 → ((∃ u, DTUnit.try_from_u8 k v = .ok u) ↔ v ≤ k.max)) ∧
    DTUnit.try_from_usize k k.max = .ok ⟨k.max⟩ ∧
    DTUnit.try_from_usize k (k.max + 1) =
      .error (.Overflow "$name" k.max) ∧
    DTUnit.try_from_u8 k (k.max + 1) =
      .error (.Overflow "$name" k.max) := by
  have hmax := UnitKind.max_lt_256 k
  refine ⟨?_, ?_, ?_, ?_, ?_⟩
  · unfold DTUnit.try_from_usize
    split_ifs with h1 <;> simp <;> omega
  · intro h256
    unfold DTUnit.try_from_u8
    split_ifs with h1 <;> simp <;> omega
  · unfold DTUnit.try_from_usize
    rw [if_neg (by omega), Nat.mod_eq_of_lt (by omega)]
  · unfold DTUnit.try_from_usize
    rw [if_pos (by omega)]
  · unfold DTUnit.try_from_u8
    rw [if_pos (by omega)]

/-- C3 witness: the theorem instantiated at `Minute` with `v = 60`. -/
theorem C3_try_from_succeeds_iff_le_max_witness :
    ((∃ u, DTUnit.try_from_usize .Minute 60 = .ok u) ↔
      60 ≤ UnitKind.max .Minute) ∧
    (60 < 256 → ((∃ u, DTUnit.try_from_u8 .Minute 60 = .ok u) ↔
      60 ≤ UnitKind.max .Minute)) ∧
    DTUnit.try_from_usize .Minute (UnitKind.max .Minute) =
      .ok ⟨UnitKind.max .Minute⟩ ∧
    DTUnit.try_from_usize .Minute (UnitKind.max .Minute + 1) =
      .error (.Overflow "$name" (UnitKind.max .Minute)) ∧
    DTUnit.try_from_u8 .Minute (UnitKind.max .Minute + 1) =
      .error (.Overflow "$name" (UnitKind.max .Minute)) :=
  C3_try_from_succeeds_iff_le_max .Minute 60 (by decide)

/-- C5: constructing a composite with all five bounded components in
range succeeds, and reading every accessor of the `DateTimeType` impl
returns exactly the values passed in (converted back through the total
`From` impls for the bounded fields), with no offset applied. -/
theorem C5_try_new_roundtrip (y m d h mi s : Nat)
    (hm : m ≤ 12) (hd : d ≤ 32) (hh : h ≤ 24) (hmi : mi ≤ 60)
    (hs : s ≤ 60) :
    ∃ dt, MockDateTime.try_new y m d h mi s = .ok dt ∧
      dt.yearAcc = y ∧ dt.monthAcc.to_usize = m ∧
      dt.dayAcc.to_usize = d ∧ dt.hourAcc.to_usize = h ∧
      dt.minuteAcc.to_usize = mi ∧ dt.secondAcc.to_usize = s := by
  refine ⟨⟨y, ⟨m⟩, ⟨d⟩, ⟨h⟩, ⟨mi⟩, ⟨s⟩⟩, ?_, rfl, rfl, rfl, rfl, rfl, rfl⟩
  unfold MockDateTime.try_new DTUnit.try_from_usize
  simp only [UnitKind.max]
  rw [if_neg (by omega), if_neg (by omega), if_neg (by omega),
    if_neg (by omega), if_neg (by omega)]
  rw [Nat.mod_eq_of_lt (by omega), Nat.mod_eq_of_lt (by omega),
    Nat.mod_eq_of_lt (by omega), Nat.mod_eq_of_lt (by omega),
    Nat.mod_eq_of_lt (by omega)]

/-- C5 witness: the round trip at the concrete in-range input
`(2020, 9, 24, 13, 21, 0)`. -/
theorem C5_try_new_roundtrip_witness :
    ∃ dt, MockDateTime.try_new 2020 9 24 13 21 0 = .ok dt ∧
      dt.yearAcc = 2020 ∧ dt.monthAcc.to_usize = 9 ∧
      dt.dayAcc.to_usize = 24 ∧ dt.hourAcc.to_usize = 13 ∧
      dt.minuteAcc.to_usize = 21 ∧ dt.secondAcc.to_usize = 0 :=
  C5_try_new_roundtrip 2020 9 24 13 21 0 (by decide) (by decide)
    (by decide) (by decide) (by decide)

/-- C6: `try_new` is exactly field-at-a-time validation in the fixed
order month, day, hour, minute, second: the first out-of-range component
in that order determines the overflow error (carrying that component's
maximum), the year is never validated or rejected, and construction
succeeds precisely when all five bounded components are in range. -/
theorem C6_try_new_validation_order (y m d h mi s : Nat) :
    MockDateTime.try_new y m d h mi s =
      if m > 12 then .error (.Overflow "$name" 12)
      else if d > 32 then .error (.Overflow "$name" 32)
      else if h > 24 then .error (.Overflow "$name" 24)
      else if mi > 60 then .error (.Overflow "$name" 60)
      else if s > 60 then .error (.Overflow "$name" 60)
      else .ok ⟨y, ⟨m⟩, ⟨d⟩, ⟨h⟩, ⟨mi⟩, ⟨s⟩⟩ := by
  unfold MockDateTime.try_new DTUnit.try_from_usize
  simp only [UnitKind.max]
  split_ifs <;> try rfl
  rw [Nat.mod_eq_of_lt (by omega), Nat.mod_eq_of_lt (by omega),
    Nat.mod_eq_of_lt (by omega), Nat.mod_eq_of_lt (by omega),
    Nat.mod_eq_of_lt (by omega)]

end ICU4X

namespace ICU4X

/-- A slice whose range is valid for the input returns the characters in
that range. -/
theorem strSlice_eq (input : List Char) (a b : Nat) (h : a ≤ b)
    (h2 : b ≤ input.length) :
    strSlice input a b = some ((input.drop a).take (b - a)) := by
  unfold strSlice
  rw [if_pos ⟨h, h2⟩]

/-- C7: composite parsing reads only the fixed numeric positions of the
19-character layout and never inspects the delimiter positions
(4, 7, 10, 13, 16): whenever the input is long enough and the six
numeric substrings at the fixed positions parse as decimal integers in
range (month and day at least 1), `from_str` succeeds — the delimiter
characters are left completely unconstrained. -/
theorem C7_delimiters_never_inspected (input : List Char)
    (y mv dv hv2 miv sv : Nat)
    (hlen : 19 ≤ input.length)
    (hy : parseUsize (input.take 4) = .ok y)
    (hm : parseU8 ((input.drop 5).take 2) = .ok mv)
    (hm1 : 1 ≤ mv) (hm2 : mv ≤ 12)
    (hd : parseU8 ((input.drop 8).take 2) = .ok dv)
    (hd1 : 1 ≤ dv) (hd2 : dv ≤ 32)
    (hh : parseU8 ((input.drop 11).take 2) = .ok hv2) (hh2 : hv2 ≤ 24)
    (hmi : parseU8 ((input.drop 14).take 2) = .ok miv) (hmi2 : miv ≤ 60)
    (hs : parseU8 ((input.drop 17).take 2) = .ok sv) (hs2 : sv ≤ 60) :
    MockDateTime.from_str input =
      some (.ok ⟨y, ⟨mv - 1⟩, ⟨dv - 1⟩, ⟨hv2⟩, ⟨miv⟩, ⟨sv⟩⟩) := by
  have e1 := strSlice_eq input 0 4 (by omega) (by omega)
  have e2 := strSlice_eq input 5 7 (by omega) (by omega)
  have e3 := strSlice_eq input 8 10 (by omega) (by omega)
  have e4 := strSlice_eq input 11 13 (by omega) (by omega)
  have e5 := strSlice_eq input 14 16 (by omega) (by omega)
  have e6 := strSlice_eq input 17 19 (by omega) (by omega)
  norm_num at e1 e2 e3 e4 e5 e6
  simp only [MockDateTime.from_str, DTUnit.from_str, UnitKind.max,
    e1, e2, e3, e4, e5, e6, hy, hm, hd, hh, hmi, hs]
  rw [if_neg (by omega), if_neg (by omega), if_neg (by omega),
    if_neg (by omega), if_neg (by omega)]
  simp only [DTUnit.sub, Option.some.injEq, Except.ok.injEq,
    MockDateTime.mk.injEq, DTUnit.mk.injEq, and_true, true_and]
  omega

/-- C7 witness: the input `2020X09Y24Z13W21V00`, whose delimiter
positions hold `X`, `Y`, `Z`, `W`, `V` instead of `-`, `-`, `T`, `:`,
`:`, still parses successfully. -/
theorem C7_delimiters_never_inspected_witness :
    MockDateTime.from_str ("2020X09Y24Z13W21V00".data) =
      some (.ok ⟨2020, ⟨8⟩, ⟨23⟩, ⟨13⟩, ⟨21⟩, ⟨0⟩⟩) :=
  C7_delimiters_never_inspected ("2020X09Y24Z13W21V00".data)
    2020 9 24 13 21 0 (by decide) rfl rfl (by decide) (by decide)
    rfl (by decide) (by decide) rfl (by decide) rfl (by decide)
    rfl (by decide)

/-- C9: the `Add<u8>`/`Sub<u8>` impls return a value of the same unit
type whose raw value is adjusted by exactly the operand whenever the raw
`u8` arithmetic does not overflow or underflow, with no re-check against
the unit's maximum and no guard against underflow at 0: when the operand
exceeds the raw value the subtraction wraps (release; debug aborts)
instead of saturating or erroring.  In particular an in-range `Month`
value exists whose increment exceeds the maximum 12 without any error,
and the `Month` value 0 decremented by 1 yields the out-of-invariant
raw value 255 without any error. -/
theorem C9_arith_no_revalidation (k : UnitKind) (x : DTUnit k) (n : Nat)
    (hx : x.val < 256) (hn : n < 256) :
    (x.val + n < 256 → (x.add n).val = x.val + n) ∧
    (n ≤ x.val → (x.sub n).val = x.val - n) ∧
    (x.val < n → (x.sub n).val = x.val + 256 - n) ∧
    (∃ m : DTUnit .Month, m.val ≤ UnitKind.max .Month ∧
      UnitKind.max .Month < (m.add 1).val) ∧
    (∃ z : DTUnit .Month, z.val = 0 ∧
      UnitKind.max .Month < (z.sub 1).val ∧ (z.sub 1).val = 255) := by
  refine ⟨?_, ?_, ?_, ⟨⟨12⟩, by decide, by decide⟩,
    ⟨⟨0⟩, rfl, by decide, by decide⟩⟩
  · intro h
    show (x.val + n) % 256 = x.val + n
    omega
  · intro h
    show (x.val + 256 - n % 256) % 256 = x.val - n
    omega
  · intro h
    show (x.val + 256 - n % 256) % 256 = x.val + 256 - n
    omega

/-- C9 witness: the theorem at the concrete `Month` value 3 with
operand 2. -/
theorem C9_arith_no_revalidation_witness :
    ((3 : Nat) + 2 < 256 →
      (DTUnit.add (⟨3⟩ : DTUnit .Month) 2).val = 3 + 2) ∧
    ((2 : Nat) ≤ 3 → (DTUnit.sub (⟨3⟩ : DTUnit .Month) 2).val = 3 - 2) ∧
    ((3 : Nat) < 2 →
      (DTUnit.sub (⟨3⟩ : DTUnit .Month) 2).val = 3 + 256 - 2) ∧
    (∃ m : DTUnit .Month, m.val ≤ UnitKind.max .Month ∧
      UnitKind.max .Month < (m.add 1).val) ∧
    (∃ z : DTUnit .Month, z.val = 0 ∧
      UnitKind.max .Month < (z.sub 1).val ∧ (z.sub 1).val = 255) :=
  C9_arith_no_revalidation .Month ⟨3⟩ 2 (by decide) (by decide)

/-- C10: the `TryFrom<usize>` range check runs before the `as u8`
narrowing, so no truncation ever occurs: every input above the maximum is
rejected — including `256 + 5`, whose low 8 bits (5) would be in range —
and every value produced by any checked constructor (`TryFrom<usize>`,
`TryFrom<u8>`, `FromStr`) satisfies the invariant `raw ≤ max`. -/
theorem C10_check_before_narrowing (k : UnitKind) :
    (∀ v, v < 2 ^ 64 → k.max < v →
      DTUnit.try_from_usize k v = .error (.Overflow "$name" k.max)) ∧
    DTUnit.try_from_usize k (256 + 5) =
      .error (.Overflow "$name" k.max) ∧
    (∀ v u, DTUnit.try_from_usize k v = .ok u → u.val ≤ k.max) ∧
    (∀ v u, v < 256 → DTUnit.try_from_u8 k v = .ok u → u.val ≤ k.max) ∧
    (∀ s u, DTUnit.from_str k s = .ok u → u.val ≤ k.max) := by
  have hmax := UnitKind.max_lt_256 k
  refine ⟨?_, ?_, ?_, ?_, ?_⟩
  · intro v _ hgt
    unfold DTUnit.try_from_usize
    rw [if_pos hgt]
  · unfold DTUnit.try_from_usize
    rw [if_pos (by omega)]
  · intro v u h
    unfold DTUnit.try_from_usize at h
    split at h
    · simp at h
    next hle =>
      cases h
      show v % 256 ≤ k.max
      omega
  · intro v u _ h
    unfold DTUnit.try_from_u8 at h
    split at h
    · simp at h
    next hle =>
      cases h
      exact Nat.le_of_not_lt hle
  · intro s u h
    exact (DTUnit.from_str_ok_bound h).2

/-- C10 witness: for `Month`, the input 999 and the input `256 + 5` are
both rejected, and concrete values produced by each checked constructor
respect the bound. -/
theorem C10_check_before_narrowing_witness :
    DTUnit.try_from_usize .Month 999 =
      .error (.Overflow "$name" (UnitKind.max .Month)) ∧
    DTUnit.try_from_usize .Month (256 + 5) =
      .error (.Overflow "$name" (UnitKind.max .Month)) ∧
    (⟨5⟩ : DTUnit .Month).val ≤ UnitKind.max .Month ∧
    (⟨7⟩ : DTUnit .Month).val ≤ UnitKind.max .Month ∧
    (⟨9⟩ : DTUnit .Month).val ≤ UnitKind.max .Month :=
  ⟨(C10_check_before_narrowing .Month).1 999 (by decide) (by decide),
   (C10_check_before_narrowing .Month).2.1,
   (C10_check_before_narrowing .Month).2.2.1 5 ⟨5⟩ rfl,
   (C10_check_before_narrowing .Month).2.2.2.1 7 ⟨7⟩ (by decide) rfl,
   (C10_check_before_narrowing .Month).2.2.2.2 ("9".data) ⟨9⟩ rfl⟩

end ICU4X
